import Mathlib

/-!
Verification development for the production-tracking backend
(`core/views.py`, `core/models.py`).

The development shallowly embeds the two mutating operations of the
`SeguimientoProduccionViewSet`:

* `controlar_tiempo` — the timer state machine (events INICIO / PAUSA /
  REANUDAR / FIN over states PENDIENTE / EN_PROGRESO / PAUSADO /
  FINALIZADO);
* `asignar_trabajadores` — worker assignment with attendance upserts.

Modelling conventions:

* Timestamps are integer microseconds (Python `datetime` has microsecond
  resolution); `int(timedelta.total_seconds())` is modelled exactly as
  truncation toward zero of `Δµs / 10^6`.
* The entity's `estado` is a `String`, because the Python code compares it
  against string literals directly.
* The activity log (`seguimiento.actividades`) is kept most-recent-first,
  so `actividades.order_by(-timestamp).first()` is `List.head?`; only the
  `timestamp` field of that entry is ever read, and event timestamps are
  nondecreasing in insertion order, so this models the query faithfully.
* `evento.upper()` is modelled by `pyUpper` (ASCII uppercasing, which is
  what Python `str.upper` does on the ASCII inputs compared here).
* Dereferencing `ultima_actividad.timestamp` when the log is empty raises
  `AttributeError` in Python (`None` has no `timestamp`); this unhandled
  exception is modelled by the `Resultado.crash` outcome.  The entity row
  is not saved on that path (`seguimiento.save()` is never reached), so
  the crash carries the unchanged entity.
-/

/-- Embedding of model `RegistroActividad` (core/models.py): one timer event
log entry. `timestamp` is `auto_now_add` (the event's wall-clock time, in
microseconds); `usuario` is nullable. -/
structure RegistroActividad where
  tipo_evento : String
  timestamp : Int
  usuario : Option Nat
deriving Repr, DecidableEq

/-- Embedding of model `SeguimientoProduccion` (core/models.py): the tracking
entity. `trabajadores_asignados` is the many-to-many worker set (worker ids);
`actividades` is the reverse relation to `RegistroActividad`, most recent
first. -/
structure SeguimientoProduccion where
  estado : String
  trabajadores_asignados : List Nat
  fecha_inicio : Option Int
  fecha_fin : Option Int
  duracion_total_segundos : Int
  actividades : List RegistroActividad
deriving Repr, DecidableEq

/-- Embedding of model `RegistroAsistencia` (core/models.py) scoped to one
tracking entity: daily attendance of one worker. -/
structure RegistroAsistencia where
  trabajador : Nat
  fecha : Nat
  asistio : Bool
deriving Repr, DecidableEq

/-- A tracking entity as created by the model defaults (core/models.py):
state `PENDIENTE`, no workers, null timestamps, zero accumulated duration,
empty activity log. -/
def initSeguimiento : SeguimientoProduccion :=
  { estado := "PENDIENTE"
    trabajadores_asignados := []
    fecha_inicio := none
    fecha_fin := none
    duracion_total_segundos := 0
    actividades := [] }

/-- The outcome of one `controlar_tiempo` request.  `ok` is HTTP 200 with the
saved entity (new log entry included); `badRequest` is HTTP 400 carrying the
untouched database row (`save()` not reached); `crash` is the unhandled
`AttributeError` (HTTP 500), also carrying the untouched row. -/
inductive Resultado where
  | ok (s : SeguimientoProduccion)
  | badRequest (error : String) (s : SeguimientoProduccion)
  | crash (s : SeguimientoProduccion)
deriving Repr, DecidableEq

/-- Whether the request was accepted (HTTP 200). -/
def Resultado.isOk : Resultado → Bool
  | .ok _ => true
  | _ => false

/-- The values of `RegistroActividad.TipoEvento` (core/models.py). -/
def tipoEventoValues : List String := ["INICIO", "PAUSA", "REANUDAR", "FIN"]

/-- Model of Python `str.upper()` on the ASCII strings involved here. -/
def pyUpper (s : String) : String := String.mk (s.data.map Char.toUpper)

/-- Model of `int((a - b).total_seconds())` with `delta_us = a - b` in
microseconds: division by 10^6 truncated toward zero (Python `int()` on a
float truncates toward zero; for the nonnegative deltas of normal operation
this coincides with floor). -/
def int_total_seconds (delta_us : Int) : Int :=
  if 0 ≤ delta_us then ((delta_us.toNat / 1000000 : Nat) : Int)
  else -(((-delta_us).toNat / 1000000 : Nat) : Int)

/-- The error message of the event-name validation (core/views.py line 214). -/
def msgEventoNoValido : String :=
  "Evento no válido. Use: " ++ String.intercalate ", " tipoEventoValues

/-- The error message of the worker-assignment precondition (line 211). -/
def msgSinTrabajadores : String :=
  "No hay trabajadores asignados a este subproceso."

/-- Embedding of `SeguimientoProduccionViewSet.controlar_tiempo`
(core/views.py lines 205-249).  Inputs: the entity row, the raw `evento`
string from the request body, the wall-clock `now` (microseconds), the acting
user.  The structure mirrors the Python control flow statement by statement:
worker check, event-name check, `ultima_actividad` query, then the four
event branches, then log-entry creation and `save()`. -/
def controlar_tiempo (seguimiento : SeguimientoProduccion) (evento_raw : String)
    (now : Int) (usuario : Option Nat) : Resultado :=
  let evento := pyUpper evento_raw
  if seguimiento.trabajadores_asignados = [] then
    .badRequest msgSinTrabajadores seguimiento
  else if evento ∉ tipoEventoValues then
    .badRequest msgEventoNoValido seguimiento
  else
    let ultima_actividad := seguimiento.actividades.head?
    let guardar : SeguimientoProduccion → Resultado := fun s =>
      .ok { s with actividades :=
              { tipo_evento := evento, timestamp := now, usuario := usuario } :: s.actividades }
    if evento = "INICIO" then
      if seguimiento.estado ≠ "PENDIENTE" then
        .badRequest "El trabajo ya ha sido iniciado." seguimiento
      else
        guardar { seguimiento with estado := "EN_PROGRESO", fecha_inicio := some now }
    else if evento = "PAUSA" then
      if seguimiento.estado ≠ "EN_PROGRESO" then
        .badRequest "El trabajo no está en progreso." seguimiento
      else
        match ultima_actividad with
        | none => .crash seguimiento
        | some ua =>
          let duracion := int_total_seconds (now - ua.timestamp)
          guardar { seguimiento with
            duracion_total_segundos := seguimiento.duracion_total_segundos + duracion
            estado := "PAUSADO" }
    else if evento = "REANUDAR" then
      if seguimiento.estado ≠ "PAUSADO" then
        .badRequest "El trabajo no está pausado." seguimiento
      else
        guardar { seguimiento with estado := "EN_PROGRESO" }
    else
      if seguimiento.estado ∉ ["EN_PROGRESO", "PAUSADO"] then
        .badRequest "El trabajo no puede ser finalizado en su estado actual." seguimiento
      else if seguimiento.estado = "EN_PROGRESO" then
        match ultima_actividad with
        | none => .crash seguimiento
        | some ua =>
          let duracion := int_total_seconds (now - ua.timestamp)
          guardar { seguimiento with
            duracion_total_segundos := seguimiento.duracion_total_segundos + duracion
            estado := "FINALIZADO"
            fecha_fin := some now }
      else
        guardar { seguimiento with estado := "FINALIZADO", fecha_fin := some now }

/-- One timer-control request: the raw event string, the wall-clock time of
the request, the acting user. -/
structure EventoInput where
  evento : String
  now : Int
  usuario : Option Nat
deriving Repr, DecidableEq

/-- The database row after one request: the saved entity on acceptance, the
untouched row on rejection or crash. -/
def aplicar (s : SeguimientoProduccion) (e : EventoInput) : SeguimientoProduccion :=
  match controlar_tiempo s e.evento e.now e.usuario with
  | .ok s' => s'
  | .badRequest _ s' => s'
  | .crash s' => s'

/-- The database row after a sequence of requests. -/
def ejecutar (s : SeguimientoProduccion) : List EventoInput → SeguimientoProduccion
  | [] => s
  | e :: es => ejecutar (aplicar s e) es

/-- How many of the requests in the sequence are accepted (HTTP 200). -/
def aceptados (s : SeguimientoProduccion) : List EventoInput → Nat
  | [] => 0
  | e :: es =>
      (if (controlar_tiempo s e.evento e.now e.usuario).isOk then 1 else 0) +
        aceptados (aplicar s e) es

/-- The requests of a sequence are in wall-clock order and no earlier than
`t`: the monotone-clock assumption for a sequence of real requests. -/
def Cronologico : Int → List EventoInput → Prop
  | _, [] => True
  | t, e :: es => t ≤ e.now ∧ Cronologico e.now es

/-- The shape of the `trabajadores_ids` request-body field: a JSON list of
worker ids, or any other JSON shape. -/
inductive TrabajadoresInput where
  | lista (ids : List Nat)
  | noLista
deriving Repr, DecidableEq

/-- Embedding of `RegistroAsistencia.objects.update_or_create` keyed on
(seguimiento, trabajador, fecha) with `defaults = (asistio := True)`
(core/views.py lines 196-199), scoped to one tracking entity. -/
def update_or_create_asistencia (att : List RegistroAsistencia) (w : Nat) (hoy : Nat) :
    List RegistroAsistencia :=
  if att.any (fun r => r.trabajador == w && r.fecha == hoy) then
    att.map (fun r => if r.trabajador = w ∧ r.fecha = hoy then { r with asistio := true } else r)
  else
    att ++ [{ trabajador := w, fecha := hoy, asistio := true }]

/-- Embedding of `SeguimientoProduccionViewSet.asignar_trabajadores`
(core/views.py lines 184-201).  `db` is the set of existing worker ids
(`Trabajador.objects`); `att` the attendance table scoped to this entity;
`hoy` is `datetime.now().date()`.  A non-list body is rejected before any
mutation; otherwise the worker set is overwritten with the existing workers
among the given ids and attendance is upserted for each of them. -/
def asignar_trabajadores (db : List Nat) (seguimiento : SeguimientoProduccion)
    (att : List RegistroAsistencia) (input : TrabajadoresInput) (hoy : Nat) :
    Except String (SeguimientoProduccion × List RegistroAsistencia) :=
  match input with
  | .noLista => .error "Se espera una lista de IDs de trabajadores."
  | .lista ids =>
    let trabajadores := db.filter (fun w => w ∈ ids)
    let seguimiento' := { seguimiento with trabajadores_asignados := trabajadores }
    let att' := trabajadores.foldl (fun acc w => update_or_create_asistencia acc w hoy) att
    .ok (seguimiento', att')

/-! ### Characterization lemmas for `controlar_tiempo`, one per control-flow path -/

theorem ct_sin_trabajadores (s : SeguimientoProduccion) (e : String) (now : Int) (u : Option Nat)
    (hw : s.trabajadores_asignados = []) :
    controlar_tiempo s e now u = .badRequest msgSinTrabajadores s := by
  simp only [controlar_tiempo]
  rw [if_pos hw]

theorem ct_evento_no_valido (s : SeguimientoProduccion) (e : String) (now : Int) (u : Option Nat)
    (hw : s.trabajadores_asignados ≠ []) (hv : pyUpper e ∉ tipoEventoValues) :
    controlar_tiempo s e now u = .badRequest msgEventoNoValido s := by
  simp only [controlar_tiempo]
  rw [if_neg hw, if_pos hv]

theorem ct_inicio_ok (s : SeguimientoProduccion) (e : String) (now : Int) (u : Option Nat)
    (hw : s.trabajadores_asignados ≠ []) (hup : pyUpper e = "INICIO")
    (he : s.estado = "PENDIENTE") :
    controlar_tiempo s e now u =
      .ok { s with
              estado := "EN_PROGRESO"
              fecha_inicio := some now
              actividades := ⟨"INICIO", now, u⟩ :: s.actividades } := by
  simp only [controlar_tiempo, hup]
  rw [if_neg hw, if_neg (not_not_intro (by decide : "INICIO" ∈ tipoEventoValues))]
  rw [if_pos trivial, if_neg (not_not_intro he)]

theorem ct_inicio_rechazo (s : SeguimientoProduccion) (e : String) (now : Int) (u : Option Nat)
    (hw : s.trabajadores_asignados ≠ []) (hup : pyUpper e = "INICIO")
    (he : s.estado ≠ "PENDIENTE") :
    controlar_tiempo s e now u = .badRequest "El trabajo ya ha sido iniciado." s := by
  simp only [controlar_tiempo, hup]
  rw [if_neg hw, if_neg (not_not_intro (by decide : "INICIO" ∈ tipoEventoValues))]
  rw [if_pos trivial, if_pos he]

theorem ct_pausa_ok (s : SeguimientoProduccion) (e : String) (now : Int) (u : Option Nat)
    (ua : RegistroActividad) (resto : List RegistroActividad)
    (hw : s.trabajadores_asignados ≠ []) (hup : pyUpper e = "PAUSA")
    (he : s.estado = "EN_PROGRESO") (hh : s.actividades = ua :: resto) :
    controlar_tiempo s e now u =
      .ok { s with
              duracion_total_segundos :=
                s.duracion_total_segundos + int_total_seconds (now - ua.timestamp)
              estado := "PAUSADO"
              actividades := ⟨"PAUSA", now, u⟩ :: s.actividades } := by
  simp only [controlar_tiempo, hup, hh]
  rw [if_neg hw, if_neg (not_not_intro (by decide : "PAUSA" ∈ tipoEventoValues))]
  rw [if_neg (by decide : ¬("PAUSA" = "INICIO")), if_pos trivial, if_neg (not_not_intro he)]
  rfl

theorem ct_pausa_rechazo (s : SeguimientoProduccion) (e : String) (now : Int) (u : Option Nat)
    (hw : s.trabajadores_asignados ≠ []) (hup : pyUpper e = "PAUSA")
    (he : s.estado ≠ "EN_PROGRESO") :
    controlar_tiempo s e now u = .badRequest "El trabajo no está en progreso." s := by
  simp only [controlar_tiempo, hup]
  rw [if_neg hw, if_neg (not_not_intro (by decide : "PAUSA" ∈ tipoEventoValues))]
  rw [if_neg (by decide : ¬("PAUSA" = "INICIO")), if_pos trivial, if_pos he]

theorem ct_pausa_crash (s : SeguimientoProduccion) (e : String) (now : Int) (u : Option Nat)
    (hw : s.trabajadores_asignados ≠ []) (hup : pyUpper e = "PAUSA")
    (he : s.estado = "EN_PROGRESO") (hnil : s.actividades = []) :
    controlar_tiempo s e now u = .crash s := by
  simp only [controlar_tiempo, hup, hnil]
  rw [if_neg hw, if_neg (not_not_intro (by decide : "PAUSA" ∈ tipoEventoValues))]
  rw [if_neg (by decide : ¬("PAUSA" = "INICIO")), if_pos trivial, if_neg (not_not_intro he)]
  rfl

theorem ct_reanudar_ok (s : SeguimientoProduccion) (e : String) (now : Int) (u : Option Nat)
    (hw : s.trabajadores_asignados ≠ []) (hup : pyUpper e = "REANUDAR")
    (he : s.estado = "PAUSADO") :
    controlar_tiempo s e now u =
      .ok { s with
              estado := "EN_PROGRESO"
              actividades := ⟨"REANUDAR", now, u⟩ :: s.actividades } := by
  simp only [controlar_tiempo, hup]
  rw [if_neg hw, if_neg (not_not_intro (by decide : "REANUDAR" ∈ tipoEventoValues))]
  rw [if_neg (by decide : ¬("REANUDAR" = "INICIO"))]
  rw [if_neg (by decide : ¬("REANUDAR" = "PAUSA")), if_pos trivial, if_neg (not_not_intro he)]

theorem ct_reanudar_rechazo (s : SeguimientoProduccion) (e : String) (now : Int) (u : Option Nat)
    (hw : s.trabajadores_asignados ≠ []) (hup : pyUpper e = "REANUDAR")
    (he : s.estado ≠ "PAUSADO") :
    controlar_tiempo s e now u = .badRequest "El trabajo no está pausado." s := by
  simp only [controlar_tiempo, hup]
  rw [if_neg hw, if_neg (not_not_intro (by decide : "REANUDAR" ∈ tipoEventoValues))]
  rw [if_neg (by decide : ¬("REANUDAR" = "INICIO"))]
  rw [if_neg (by decide : ¬("REANUDAR" = "PAUSA")), if_pos trivial, if_pos he]

theorem ct_fin_rechazo (s : SeguimientoProduccion) (e : String) (now : Int) (u : Option Nat)
    (hw : s.trabajadores_asignados ≠ []) (hup : pyUpper e = "FIN")
    (he : s.estado ∉ ["EN_PROGRESO", "PAUSADO"]) :
    controlar_tiempo s e now u =
      .badRequest "El trabajo no puede ser finalizado en su estado actual." s := by
  simp only [controlar_tiempo, hup]
  rw [if_neg hw, if_neg (not_not_intro (by decide : "FIN" ∈ tipoEventoValues))]
  rw [if_neg (by decide : ¬("FIN" = "INICIO")), if_neg (by decide : ¬("FIN" = "PAUSA"))]
  rw [if_neg (by decide : ¬("FIN" = "REANUDAR")), if_pos he]

theorem ct_fin_ok_progreso (s : SeguimientoProduccion) (e : String) (now : Int) (u : Option Nat)
    (ua : RegistroActividad) (resto : List RegistroActividad)
    (hw : s.trabajadores_asignados ≠ []) (hup : pyUpper e = "FIN")
    (he : s.estado = "EN_PROGRESO") (hh : s.actividades = ua :: resto) :
    controlar_tiempo s e now u =
      .ok { s with
              duracion_total_segundos :=
                s.duracion_total_segundos + int_total_seconds (now - ua.timestamp)
              estado := "FINALIZADO"
              fecha_fin := some now
              actividades := ⟨"FIN", now, u⟩ :: s.actividades } := by
  simp only [controlar_tiempo, hup, hh]
  rw [if_neg hw, if_neg (not_not_intro (by decide : "FIN" ∈ tipoEventoValues))]
  rw [if_neg (by decide : ¬("FIN" = "INICIO")), if_neg (by decide : ¬("FIN" = "PAUSA"))]
  rw [if_neg (by decide : ¬("FIN" = "REANUDAR"))]
  rw [if_neg (not_not_intro (by simp [he]))]
  rw [if_pos he]
  rfl

theorem ct_fin_crash (s : SeguimientoProduccion) (e : String) (now : Int) (u : Option Nat)
    (hw : s.trabajadores_asignados ≠ []) (hup : pyUpper e = "FIN")
    (he : s.estado = "EN_PROGRESO") (hnil : s.actividades = []) :
    controlar_tiempo s e now u = .crash s := by
  simp only [controlar_tiempo, hup, hnil]
  rw [if_neg hw, if_neg (not_not_intro (by decide : "FIN" ∈ tipoEventoValues))]
  rw [if_neg (by decide : ¬("FIN" = "INICIO")), if_neg (by decide : ¬("FIN" = "PAUSA"))]
  rw [if_neg (by decide : ¬("FIN" = "REANUDAR"))]
  rw [if_neg (not_not_intro (by simp [he]))]
  rw [if_pos he]
  rfl

theorem ct_fin_ok_pausado (s : SeguimientoProduccion) (e : String) (now : Int) (u : Option Nat)
    (hw : s.trabajadores_asignados ≠ []) (hup : pyUpper e = "FIN")
    (he : s.estado = "PAUSADO") :
    controlar_tiempo s e now u =
      .ok { s with
              estado := "FINALIZADO"
              fecha_fin := some now
              actividades := ⟨"FIN", now, u⟩ :: s.actividades } := by
  simp only [controlar_tiempo, hup]
  rw [if_neg hw, if_neg (not_not_intro (by decide : "FIN" ∈ tipoEventoValues))]
  rw [if_neg (by decide : ¬("FIN" = "INICIO")), if_neg (by decide : ¬("FIN" = "PAUSA"))]
  rw [if_neg (by decide : ¬("FIN" = "REANUDAR"))]
  rw [if_neg (not_not_intro (by simp [he]))]
  rw [if_neg (by simp [he])]

theorem ct_factoriza (s : SeguimientoProduccion) (e1 e2 : String) (now : Int) (u : Option Nat)
    (h : pyUpper e1 = pyUpper e2) :
    controlar_tiempo s e1 now u = controlar_tiempo s e2 now u := by
  simp only [controlar_tiempo, h]

theorem mem_tipoEventoValues (e : String) :
    pyUpper e ∈ tipoEventoValues ↔
      pyUpper e = "INICIO" ∨ pyUpper e = "PAUSA" ∨ pyUpper e = "REANUDAR" ∨ pyUpper e = "FIN" := by
  simp [tipoEventoValues]

/-- Complete case analysis of one `controlar_tiempo` request: exactly one of
the thirteen control-flow outcomes of the Python function applies. -/
theorem ct_analisis (s : SeguimientoProduccion) (e : String) (now : Int) (u : Option Nat) :
    (s.trabajadores_asignados = [] ∧
      controlar_tiempo s e now u = .badRequest msgSinTrabajadores s) ∨
    (s.trabajadores_asignados ≠ [] ∧ pyUpper e ∉ tipoEventoValues ∧
      controlar_tiempo s e now u = .badRequest msgEventoNoValido s) ∨
    (s.trabajadores_asignados ≠ [] ∧ pyUpper e = "INICIO" ∧ s.estado = "PENDIENTE" ∧
      controlar_tiempo s e now u =
        .ok { s with
                estado := "EN_PROGRESO"
                fecha_inicio := some now
                actividades := ⟨"INICIO", now, u⟩ :: s.actividades }) ∨
    (s.trabajadores_asignados ≠ [] ∧ pyUpper e = "INICIO" ∧ s.estado ≠ "PENDIENTE" ∧
      controlar_tiempo s e now u = .badRequest "El trabajo ya ha sido iniciado." s) ∨
    (s.trabajadores_asignados ≠ [] ∧ pyUpper e = "PAUSA" ∧ s.estado = "EN_PROGRESO" ∧
      ∃ ua resto, s.actividades = ua :: resto ∧
      controlar_tiempo s e now u =
        .ok { s with
                duracion_total_segundos :=
                  s.duracion_total_segundos + int_total_seconds (now - ua.timestamp)
                estado := "PAUSADO"
                actividades := ⟨"PAUSA", now, u⟩ :: s.actividades }) ∨
    (s.trabajadores_asignados ≠ [] ∧ pyUpper e = "PAUSA" ∧ s.estado = "EN_PROGRESO" ∧
      s.actividades = [] ∧ controlar_tiempo s e now u = .crash s) ∨
    (s.trabajadores_asignados ≠ [] ∧ pyUpper e = "PAUSA" ∧ s.estado ≠ "EN_PROGRESO" ∧
      controlar_tiempo s e now u = .badRequest "El trabajo no está en progreso." s) ∨
    (s.trabajadores_asignados ≠ [] ∧ pyUpper e = "REANUDAR" ∧ s.estado = "PAUSADO" ∧
      controlar_tiempo s e now u =
        .ok { s with
                estado := "EN_PROGRESO"
                actividades := ⟨"REANUDAR", now, u⟩ :: s.actividades }) ∨
    (s.trabajadores_asignados ≠ [] ∧ pyUpper e = "REANUDAR" ∧ s.estado ≠ "PAUSADO" ∧
      controlar_tiempo s e now u = .badRequest "El trabajo no está pausado." s) ∨
    (s.trabajadores_asignados ≠ [] ∧ pyUpper e = "FIN" ∧ s.estado = "EN_PROGRESO" ∧
      ∃ ua resto, s.actividades = ua :: resto ∧
      controlar_tiempo s e now u =
        .ok { s with
                duracion_total_segundos :=
                  s.duracion_total_segundos + int_total_seconds (now - ua.timestamp)
                estado := "FINALIZADO"
                fecha_fin := some now
                actividades := ⟨"FIN", now, u⟩ :: s.actividades }) ∨
    (s.trabajadores_asignados ≠ [] ∧ pyUpper e = "FIN" ∧ s.estado = "EN_PROGRESO" ∧
      s.actividades = [] ∧ controlar_tiempo s e now u = .crash s) ∨
    (s.trabajadores_asignados ≠ [] ∧ pyUpper e = "FIN" ∧ s.estado = "PAUSADO" ∧
      controlar_tiempo s e now u =
        .ok { s with
                estado := "FINALIZADO"
                fecha_fin := some now
                actividades := ⟨"FIN", now, u⟩ :: s.actividades }) ∨
    (s.trabajadores_asignados ≠ [] ∧ pyUpper e = "FIN" ∧ s.estado ∉ ["EN_PROGRESO", "PAUSADO"] ∧
      controlar_tiempo s e now u =
        .badRequest "El trabajo no puede ser finalizado en su estado actual." s) := by
  by_cases hw : s.trabajadores_asignados = []
  · exact Or.inl ⟨hw, ct_sin_trabajadores s e now u hw⟩
  refine Or.inr ?_
  by_cases hv : pyUpper e ∈ tipoEventoValues
  · rcases (mem_tipoEventoValues e).mp hv with hup | hup | hup | hup
    · refine Or.inr ?_
      by_cases he : s.estado = "PENDIENTE"
      · exact Or.inl ⟨hw, hup, he, ct_inicio_ok s e now u hw hup he⟩
      · exact Or.inr (Or.inl ⟨hw, hup, he, ct_inicio_rechazo s e now u hw hup he⟩)
    · refine Or.inr (Or.inr (Or.inr ?_))
      by_cases he : s.estado = "EN_PROGRESO"
      · by_cases hnil : s.actividades = []
        · exact Or.inr (Or.inl ⟨hw, hup, he, hnil, ct_pausa_crash s e now u hw hup he hnil⟩)
        · obtain ⟨ua, resto, hh⟩ := List.exists_cons_of_ne_nil hnil
          exact Or.inl ⟨hw, hup, he, ua, resto, hh, ct_pausa_ok s e now u ua resto hw hup he hh⟩
      · exact Or.inr (Or.inr (Or.inl ⟨hw, hup, he, ct_pausa_rechazo s e now u hw hup he⟩))
    · refine Or.inr (Or.inr (Or.inr (Or.inr (Or.inr (Or.inr ?_)))))
      by_cases he : s.estado = "PAUSADO"
      · exact Or.inl ⟨hw, hup, he, ct_reanudar_ok s e now u hw hup he⟩
      · exact Or.inr (Or.inl ⟨hw, hup, he, ct_reanudar_rechazo s e now u hw hup he⟩)
    · refine Or.inr (Or.inr (Or.inr (Or.inr (Or.inr (Or.inr (Or.inr (Or.inr ?_)))))))
      by_cases he1 : s.estado = "EN_PROGRESO"
      · by_cases hnil : s.actividades = []
        · exact Or.inr (Or.inl ⟨hw, hup, he1, hnil, ct_fin_crash s e now u hw hup he1 hnil⟩)
        · obtain ⟨ua, resto, hh⟩ := List.exists_cons_of_ne_nil hnil
          exact Or.inl ⟨hw, hup, he1, ua, resto, hh,
            ct_fin_ok_progreso s e now u ua resto hw hup he1 hh⟩
      · by_cases he2 : s.estado = "PAUSADO"
        · exact Or.inr (Or.inr (Or.inl ⟨hw, hup, he2, ct_fin_ok_pausado s e now u hw hup he2⟩))
        · refine Or.inr (Or.inr (Or.inr ⟨hw, hup, ?_, ct_fin_rechazo s e now u hw hup ?_⟩)) <;>
            simp [he1, he2]
  · exact Or.inl ⟨hw, hv, ct_evento_no_valido s e now u hw hv⟩

/-! ### Structural consequences -/

/-- A rejected request returns the untouched entity row: every `badRequest`
carries the input entity. -/
theorem ct_badRequest_sin_mutacion (s : SeguimientoProduccion) (e : String) (now : Int)
    (u : Option Nat) (msg : String) (s' : SeguimientoProduccion)
    (h : controlar_tiempo s e now u = .badRequest msg s') : s' = s := by
  rcases ct_analisis s e now u with ⟨_, hct⟩ | ⟨_, _, hct⟩ | ⟨_, _, _, hct⟩ | ⟨_, _, _, hct⟩ |
    ⟨_, _, _, _, _, _, hct⟩ | ⟨_, _, _, _, hct⟩ | ⟨_, _, _, hct⟩ | ⟨_, _, _, hct⟩ |
    ⟨_, _, _, hct⟩ | ⟨_, _, _, _, _, _, hct⟩ | ⟨_, _, _, _, hct⟩ | ⟨_, _, _, hct⟩ |
    ⟨_, _, _, hct⟩ <;> rw [hct] at h <;> cases h <;> rfl

/-- A crashed request also leaves the row untouched (`save()` unreached). -/
theorem ct_crash_sin_mutacion (s : SeguimientoProduccion) (e : String) (now : Int)
    (u : Option Nat) (s' : SeguimientoProduccion)
    (h : controlar_tiempo s e now u = .crash s') : s' = s := by
  rcases ct_analisis s e now u with ⟨_, hct⟩ | ⟨_, _, hct⟩ | ⟨_, _, _, hct⟩ | ⟨_, _, _, hct⟩ |
    ⟨_, _, _, _, _, _, hct⟩ | ⟨_, _, _, _, hct⟩ | ⟨_, _, _, hct⟩ | ⟨_, _, _, hct⟩ |
    ⟨_, _, _, hct⟩ | ⟨_, _, _, _, _, _, hct⟩ | ⟨_, _, _, _, hct⟩ | ⟨_, _, _, hct⟩ |
    ⟨_, _, _, hct⟩ <;> rw [hct] at h <;> cases h <;> rfl

/-- An accepted request appends exactly the new log entry (tagged with the
uppercased event and the acting user) in front of the old log, and does not
touch the worker set. -/
theorem ct_ok_actividades (s : SeguimientoProduccion) (e : String) (now : Int)
    (u : Option Nat) (s' : SeguimientoProduccion)
    (h : controlar_tiempo s e now u = .ok s') :
    s'.actividades = ⟨pyUpper e, now, u⟩ :: s.actividades ∧
    s'.trabajadores_asignados = s.trabajadores_asignados := by
  rcases ct_analisis s e now u with ⟨_, hct⟩ | ⟨_, _, hct⟩ | ⟨_, hup, _, hct⟩ | ⟨_, _, _, hct⟩ |
    ⟨_, hup, _, _, _, _, hct⟩ | ⟨_, _, _, _, hct⟩ | ⟨_, _, _, hct⟩ | ⟨_, hup, _, hct⟩ |
    ⟨_, _, _, hct⟩ | ⟨_, hup, _, _, _, _, hct⟩ | ⟨_, _, _, _, hct⟩ | ⟨_, hup, _, hct⟩ |
    ⟨_, _, _, hct⟩ <;> rw [hct] at h <;> cases h <;> simp [hup]

/-- `aplicar` on an accepted request is the saved entity. -/
theorem aplicar_ok (s : SeguimientoProduccion) (e : EventoInput) (s' : SeguimientoProduccion)
    (h : controlar_tiempo s e.evento e.now e.usuario = .ok s') : aplicar s e = s' := by
  unfold aplicar
  rw [h]

/-- `aplicar` on a rejected or crashed request leaves the row unchanged. -/
theorem aplicar_sin_cambio (s : SeguimientoProduccion) (e : EventoInput)
    (h : ∀ s', controlar_tiempo s e.evento e.now e.usuario ≠ .ok s') : aplicar s e = s := by
  unfold aplicar
  cases hct : controlar_tiempo s e.evento e.now e.usuario with
  | ok s' => exact absurd hct (h s')
  | badRequest msg s' => exact ct_badRequest_sin_mutacion s e.evento e.now e.usuario msg s' hct
  | crash s' => exact ct_crash_sin_mutacion s e.evento e.now e.usuario s' hct

/-- Case split on what one request does to the row. -/
theorem aplicar_casos (s : SeguimientoProduccion) (e : EventoInput) :
    (∃ s', controlar_tiempo s e.evento e.now e.usuario = .ok s' ∧ aplicar s e = s') ∨
    ((controlar_tiempo s e.evento e.now e.usuario).isOk = false ∧ aplicar s e = s) := by
  cases hct : controlar_tiempo s e.evento e.now e.usuario with
  | ok s' => exact Or.inl ⟨s', rfl, aplicar_ok s e s' hct⟩
  | badRequest msg s' =>
      refine Or.inr ⟨rfl, aplicar_sin_cambio s e ?_⟩
      intro t ht
      rw [hct] at ht
      cases ht
  | crash s' =>
      refine Or.inr ⟨rfl, aplicar_sin_cambio s e ?_⟩
      intro t ht
      rw [hct] at ht
      cases ht

/-- Effect of a successful worker assignment on the entity: only the worker
set changes, overwritten with the existing workers among the given ids. -/
theorem asignar_ok_entidad (db : List Nat) (s : SeguimientoProduccion)
    (att : List RegistroAsistencia) (input : TrabajadoresInput) (hoy : Nat)
    (s' : SeguimientoProduccion) (att' : List RegistroAsistencia)
    (h : asignar_trabajadores db s att input hoy = .ok (s', att')) :
    ∃ ids, input = .lista ids ∧
      s' = { s with trabajadores_asignados := db.filter (fun w => w ∈ ids) } := by
  cases input with
  | noLista => cases h
  | lista ids =>
      refine ⟨ids, rfl, ?_⟩
      simp only [asignar_trabajadores, Except.ok.injEq, Prod.mk.injEq] at h
      exact h.1.symm

/-- Invariant: a tracking entity that is in progress has a non-empty activity
log (the accepted INICIO that put it in progress logged an entry). -/
def InvLog (s : SeguimientoProduccion) : Prop :=
  s.estado = "EN_PROGRESO" → s.actividades ≠ []

/-- One timer request preserves the log invariant. -/
theorem aplicar_invLog (s : SeguimientoProduccion) (e : EventoInput) (h : InvLog s) :
    InvLog (aplicar s e) := by
  rcases aplicar_casos s e with ⟨s', hok, hap⟩ | ⟨_, hap⟩
  · rw [hap]
    rcases ct_analisis s e.evento e.now e.usuario with ⟨_, hct⟩ | ⟨_, _, hct⟩ |
      ⟨_, _, _, hct⟩ | ⟨_, _, _, hct⟩ | ⟨_, _, _, _, _, _, hct⟩ | ⟨_, _, _, _, hct⟩ |
      ⟨_, _, _, hct⟩ | ⟨_, _, _, hct⟩ | ⟨_, _, _, hct⟩ | ⟨_, _, _, _, _, _, hct⟩ |
      ⟨_, _, _, _, hct⟩ | ⟨_, _, _, hct⟩ | ⟨_, _, _, hct⟩ <;> rw [hct] at hok <;>
      cases hok <;> intro hx <;> simp_all [InvLog]
  · rw [hap]
    exact h

/-- The tracking entities reachable in the system: from the freshly created
entity, through timer-control requests and worker assignments. -/
inductive Alcanzable : SeguimientoProduccion → Prop where
  | init : Alcanzable initSeguimiento
  | pasoTiempo (s : SeguimientoProduccion) (e : EventoInput) :
      Alcanzable s → Alcanzable (aplicar s e)
  | pasoAsignacion (s s' : SeguimientoProduccion) (db : List Nat)
      (att att' : List RegistroAsistencia) (input : TrabajadoresInput) (hoy : Nat) :
      Alcanzable s → asignar_trabajadores db s att input hoy = .ok (s', att') →
      Alcanzable s'

/-- Every reachable entity satisfies the log invariant. -/
theorem alcanzable_invLog (s : SeguimientoProduccion) (h : Alcanzable s) : InvLog s := by
  induction h with
  | init => intro hx; exact absurd hx (by decide)
  | pasoTiempo s e _ ih => exact aplicar_invLog s e ih
  | pasoAsignacion s s' db att att' input hoy _ hasig ih =>
      obtain ⟨ids, _, rfl⟩ := asignar_ok_entidad db s att input hoy s' att' hasig
      intro hx
      exact ih hx

/-- Truncation toward zero of a nonnegative microsecond delta is nonnegative. -/
theorem int_total_seconds_nonneg (d : Int) (hd : 0 ≤ d) : 0 ≤ int_total_seconds d := by
  unfold int_total_seconds
  rw [if_pos hd]
  exact Int.natCast_nonneg _

/-- Helper: a bound on all log timestamps extends over a newly logged entry
stamped at the bound. -/
theorem timestamps_cons_le (l : List RegistroActividad) (x : RegistroActividad) (t : Int)
    (hx : x.timestamp ≤ t) (hl : ∀ a ∈ l, a.timestamp ≤ t) :
    ∀ a ∈ x :: l, a.timestamp ≤ t := by
  intro a ha
  rcases List.mem_cons.mp ha with rfl | ha'
  · exact hx
  · exact hl a ha'

/-- One request at wall-clock time `e.now` no earlier than every logged
timestamp never decreases the accumulated duration, and afterwards every
logged timestamp is still at most `e.now`. -/
theorem aplicar_duracion_mono (s : SeguimientoProduccion) (e : EventoInput)
    (h : ∀ a ∈ s.actividades, a.timestamp ≤ e.now) :
    s.duracion_total_segundos ≤ (aplicar s e).duracion_total_segundos ∧
    ∀ a ∈ (aplicar s e).actividades, a.timestamp ≤ e.now := by
  rcases aplicar_casos s e with ⟨s', hok, hap⟩ | ⟨_, hap⟩
  · rw [hap]
    rcases ct_analisis s e.evento e.now e.usuario with ⟨_, hct⟩ | ⟨_, _, hct⟩ |
      ⟨_, _, _, hct⟩ | ⟨_, _, _, hct⟩ | ⟨_, _, _, ua, resto, hh, hct⟩ | ⟨_, _, _, _, hct⟩ |
      ⟨_, _, _, hct⟩ | ⟨_, _, _, hct⟩ | ⟨_, _, _, hct⟩ | ⟨_, _, _, ua, resto, hh, hct⟩ |
      ⟨_, _, _, _, hct⟩ | ⟨_, _, _, hct⟩ | ⟨_, _, _, hct⟩ <;> rw [hct] at hok <;> cases hok
    · exact ⟨le_refl _, timestamps_cons_le s.actividades _ e.now (le_refl _) h⟩
    · have hts : ua.timestamp ≤ e.now := h ua (by rw [hh]; exact List.mem_cons_self ua resto)
      exact ⟨le_add_of_nonneg_right (int_total_seconds_nonneg _ (by omega)),
        timestamps_cons_le s.actividades _ e.now (le_refl _) h⟩
    · exact ⟨le_refl _, timestamps_cons_le s.actividades _ e.now (le_refl _) h⟩
    · have hts : ua.timestamp ≤ e.now := h ua (by rw [hh]; exact List.mem_cons_self ua resto)
      exact ⟨le_add_of_nonneg_right (int_total_seconds_nonneg _ (by omega)),
        timestamps_cons_le s.actividades _ e.now (le_refl _) h⟩
    · exact ⟨le_refl _, timestamps_cons_le s.actividades _ e.now (le_refl _) h⟩
  · rw [hap]
    exact ⟨le_refl _, h⟩

/-- Invariant: the end timestamp is set exactly in the FINISHED state. -/
def InvFin (s : SeguimientoProduccion) : Prop :=
  s.fecha_fin ≠ none ↔ s.estado = "FINALIZADO"

/-- One timer request preserves the end-timestamp invariant. -/
theorem aplicar_invFin (s : SeguimientoProduccion) (e : EventoInput) (h : InvFin s) :
    InvFin (aplicar s e) := by
  rcases aplicar_casos s e with ⟨s', hok, hap⟩ | ⟨_, hap⟩
  · rw [hap]
    rcases ct_analisis s e.evento e.now e.usuario with ⟨_, hct⟩ | ⟨_, _, hct⟩ |
      ⟨_, _, he, hct⟩ | ⟨_, _, _, hct⟩ | ⟨_, _, he, _, _, _, hct⟩ | ⟨_, _, _, _, hct⟩ |
      ⟨_, _, _, hct⟩ | ⟨_, _, he, hct⟩ | ⟨_, _, _, hct⟩ | ⟨_, _, he, _, _, _, hct⟩ |
      ⟨_, _, _, _, hct⟩ | ⟨_, _, he, hct⟩ | ⟨_, _, _, hct⟩ <;> rw [hct] at hok <;> cases hok <;>
      unfold InvFin at h ⊢ <;>
      simp only [he, iff_true, iff_false] at h <;> simp [h]
  · rw [hap]
    exact h

/-- `InvFin` holds after any sequence of timer requests that starts from a
state satisfying it. -/
theorem ejecutar_invFin (s : SeguimientoProduccion) (es : List EventoInput) (h : InvFin s) :
    InvFin (ejecutar s es) := by
  induction es generalizing s with
  | nil => exact h
  | cons e es ih => exact ih (aplicar s e) (aplicar_invFin s e h)

/-- After a sequence of requests the log grew by exactly the number of
accepted requests. -/
theorem ejecutar_longitud (s : SeguimientoProduccion) (es : List EventoInput) :
    (ejecutar s es).actividades.length = s.actividades.length + aceptados s es := by
  induction es generalizing s with
  | nil => simp [ejecutar, aceptados]
  | cons e es ih =>
      show (ejecutar (aplicar s e) es).actividades.length = _
      rw [ih (aplicar s e)]
      simp only [aceptados]
      rcases aplicar_casos s e with ⟨s', hok, hap⟩ | ⟨hno, hap⟩
      · have hact := (ct_ok_actividades s e.evento e.now e.usuario s' hok).1
        rw [hap, hact, hok]
        simp only [Resultado.isOk, List.length_cons, if_true]
        omega
      · rw [hap, hno]
        simp

/-- The upsert leaves a record (worker, today, attended) in the table. -/
theorem upsert_existe (att : List RegistroAsistencia) (w hoy : Nat) :
    ∃ r ∈ update_or_create_asistencia att w hoy,
      r.trabajador = w ∧ r.fecha = hoy ∧ r.asistio = true := by
  unfold update_or_create_asistencia
  by_cases hany : att.any (fun r => r.trabajador == w && r.fecha == hoy) = true
  · rw [if_pos hany]
    obtain ⟨r, hr, hcond⟩ := List.any_eq_true.mp hany
    simp only [Bool.and_eq_true, beq_iff_eq] at hcond
    refine ⟨{ r with asistio := true }, ?_, hcond.1, hcond.2, rfl⟩
    have := List.mem_map_of_mem
      (fun r => if r.trabajador = w ∧ r.fecha = hoy then { r with asistio := true } else r) hr
    simpa only [if_pos hcond] using this
  · rw [if_neg hany]
    exact ⟨⟨w, hoy, true⟩, List.mem_append_right _ (List.mem_singleton.mpr rfl), rfl, rfl, rfl⟩

/-- The upsert never removes nor un-sets an attended record of the same day. -/
theorem upsert_preserva (att : List RegistroAsistencia) (w hoy v : Nat)
    (h : ∃ r ∈ att, r.trabajador = v ∧ r.fecha = hoy ∧ r.asistio = true) :
    ∃ r ∈ update_or_create_asistencia att w hoy,
      r.trabajador = v ∧ r.fecha = hoy ∧ r.asistio = true := by
  obtain ⟨r, hr, h1, h2, h3⟩ := h
  unfold update_or_create_asistencia
  by_cases hany : att.any (fun r => r.trabajador == w && r.fecha == hoy) = true
  · rw [if_pos hany]
    by_cases hc : r.trabajador = w ∧ r.fecha = hoy
    · refine ⟨{ r with asistio := true }, ?_, h1, h2, rfl⟩
      have := List.mem_map_of_mem
        (fun r => if r.trabajador = w ∧ r.fecha = hoy then { r with asistio := true } else r) hr
      simpa only [if_pos hc] using this
    · refine ⟨r, ?_, h1, h2, h3⟩
      have := List.mem_map_of_mem
        (fun r => if r.trabajador = w ∧ r.fecha = hoy then { r with asistio := true } else r) hr
      simpa only [if_neg hc] using this
  · rw [if_neg hany]
    exact ⟨r, List.mem_append_left _ hr, h1, h2, h3⟩

/-- Folding upserts over the remaining workers keeps an attended record. -/
theorem foldl_upsert_preserva (ws : List Nat) (att : List RegistroAsistencia) (hoy v : Nat)
    (h : ∃ r ∈ att, r.trabajador = v ∧ r.fecha = hoy ∧ r.asistio = true) :
    ∃ r ∈ ws.foldl (fun acc w => update_or_create_asistencia acc w hoy) att,
      r.trabajador = v ∧ r.fecha = hoy ∧ r.asistio = true := by
  induction ws generalizing att with
  | nil => exact h
  | cons w ws ih => exact ih (update_or_create_asistencia att w hoy) (upsert_preserva att w hoy v h)

/-- After upserting attendance for every worker of the list, each of them has
an attended record for today. -/
theorem foldl_upsert_existe (ws : List Nat) (att : List RegistroAsistencia) (hoy v : Nat)
    (hv : v ∈ ws) :
    ∃ r ∈ ws.foldl (fun acc w => update_or_create_asistencia acc w hoy) att,
      r.trabajador = v ∧ r.fecha = hoy ∧ r.asistio = true := by
  induction ws generalizing att with
  | nil => cases hv
  | cons w ws ih =>
      rcases List.mem_cons.mp hv with rfl | hv'
      · exact foldl_upsert_preserva ws _ hoy v (upsert_existe att v hoy)
      · exact ih _ hv'

/-! ### Concrete entities used by the witnesses -/

/-- A pending entity with one assigned worker (reachable: fresh entity plus
one worker assignment). -/
def segPendiente : SeguimientoProduccion :=
  { estado := "PENDIENTE"
    trabajadores_asignados := [1]
    fecha_inicio := none
    fecha_fin := none
    duracion_total_segundos := 0
    actividades := [] }

/-- An in-progress entity with one worker and one INICIO log entry at 100 µs. -/
def segProgreso : SeguimientoProduccion :=
  { estado := "EN_PROGRESO"
    trabajadores_asignados := [1]
    fecha_inicio := some 100
    fecha_fin := none
    duracion_total_segundos := 0
    actividades := [⟨"INICIO", 100, none⟩] }

/-- An in-progress entity whose activity log is (unreachable-state) empty. -/
def segSinBitacora : SeguimientoProduccion :=
  { estado := "EN_PROGRESO"
    trabajadores_asignados := [1]
    fecha_inicio := none
    fecha_fin := none
    duracion_total_segundos := 0
    actividades := [] }

/-- `segPendiente` is reachable: assign worker 1 to a fresh entity. -/
theorem alcanzable_segPendiente : Alcanzable segPendiente :=
  Alcanzable.pasoAsignacion initSeguimiento segPendiente [1] [] [⟨1, 0, true⟩]
    (.lista [1]) 0 Alcanzable.init (by rfl)

/-! ### Claims -/

/-- C4: whenever a timer-control request is rejected (no workers assigned,
invalid event name, or event invalid for the current state — every
`badRequest` outcome), the tracking entity is left completely unmodified:
state, start/end timestamps, accumulated duration, worker set and activity
log unchanged, and no log entry created. -/
theorem c4_rechazo_sin_mutacion (s : SeguimientoProduccion) (e : String) (now : Int)
    (u : Option Nat) (msg : String) (s' : SeguimientoProduccion)
    (h : controlar_tiempo s e now u = .badRequest msg s') :
    s' = s ∧ s'.estado = s.estado ∧ s'.fecha_inicio = s.fecha_inicio ∧
    s'.fecha_fin = s.fecha_fin ∧ s'.duracion_total_segundos = s.duracion_total_segundos ∧
    s'.trabajadores_asignados = s.trabajadores_asignados ∧
    s'.actividades = s.actividades := by
  have he := ct_badRequest_sin_mutacion s e now u msg s' h
  subst he
  exact ⟨rfl, rfl, rfl, rfl, rfl, rfl, rfl⟩

theorem c4_rechazo_sin_mutacion_witness :
    controlar_tiempo initSeguimiento "INICIO" 0 none =
      .badRequest msgSinTrabajadores initSeguimiento ∧
    initSeguimiento = initSeguimiento :=
  ⟨by decide,
    (c4_rechazo_sin_mutacion initSeguimiento "INICIO" 0 none msgSinTrabajadores
      initSeguimiento (by decide)).1⟩

/-- C5: an entity with an empty assigned-worker set rejects every
timer-control request — any event string, hence in particular all four event
kinds, in any state — with the no-workers error, before any event can be
accepted. -/
theorem c5_sin_trabajadores_rechaza_todo (s : SeguimientoProduccion) (e : String)
    (now : Int) (u : Option Nat) (hw : s.trabajadores_asignados = []) :
    controlar_tiempo s e now u = .badRequest msgSinTrabajadores s :=
  ct_sin_trabajadores s e now u hw

theorem c5_sin_trabajadores_rechaza_todo_witness :
    initSeguimiento.trabajadores_asignados = [] ∧
    controlar_tiempo initSeguimiento "INICIO" 0 none =
      .badRequest msgSinTrabajadores initSeguimiento ∧
    controlar_tiempo initSeguimiento "PAUSA" 0 none =
      .badRequest msgSinTrabajadores initSeguimiento ∧
    controlar_tiempo initSeguimiento "REANUDAR" 0 none =
      .badRequest msgSinTrabajadores initSeguimiento ∧
    controlar_tiempo initSeguimiento "FIN" 0 none =
      .badRequest msgSinTrabajadores initSeguimiento :=
  ⟨rfl,
    c5_sin_trabajadores_rechaza_todo initSeguimiento "INICIO" 0 none rfl,
    c5_sin_trabajadores_rechaza_todo initSeguimiento "PAUSA" 0 none rfl,
    c5_sin_trabajadores_rechaza_todo initSeguimiento "REANUDAR" 0 none rfl,
    c5_sin_trabajadores_rechaza_todo initSeguimiento "FIN" 0 none rfl⟩

/-- C7: for an entity that starts in PENDIENTE with a null end timestamp and
is mutated only through the timer operation, after any sequence of timer
requests the end timestamp is set if and only if the state is FINALIZADO. -/
theorem c7_fecha_fin_syss_finalizado (s : SeguimientoProduccion) (es : List EventoInput)
    (h1 : s.estado = "PENDIENTE") (h2 : s.fecha_fin = none) :
    ((ejecutar s es).fecha_fin ≠ none ↔ (ejecutar s es).estado = "FINALIZADO") := by
  have hinv : InvFin s := by
    unfold InvFin
    rw [h1, h2]
    exact ⟨fun hx => absurd rfl hx, fun hx => absurd hx (by decide)⟩
  exact ejecutar_invFin s es hinv

theorem c7_fecha_fin_syss_finalizado_witness :
    (ejecutar segPendiente [⟨"INICIO", 5, none⟩]).fecha_fin ≠ none ↔
      (ejecutar segPendiente [⟨"INICIO", 5, none⟩]).estado = "FINALIZADO" :=
  c7_fecha_fin_syss_finalizado segPendiente [⟨"INICIO", 5, none⟩] rfl rfl

/-- C8: every accepted timer event appends exactly one log entry, tagged with
the (uppercased) event kind and the acting user; a rejected event appends
none; hence after any sequence of requests the log length equals the number
of accepted requests. -/
theorem c8_longitud_bitacora :
    (∀ (s : SeguimientoProduccion) (e : String) (now : Int) (u : Option Nat)
        (s' : SeguimientoProduccion), controlar_tiempo s e now u = .ok s' →
        s'.actividades = ⟨pyUpper e, now, u⟩ :: s.actividades) ∧
    (∀ (s : SeguimientoProduccion) (e : String) (now : Int) (u : Option Nat)
        (msg : String) (s' : SeguimientoProduccion),
        controlar_tiempo s e now u = .badRequest msg s' →
        s'.actividades = s.actividades) ∧
    (∀ (s : SeguimientoProduccion) (es : List EventoInput),
        (ejecutar s es).actividades.length = s.actividades.length + aceptados s es) := by
  refine ⟨?_, ?_, ?_⟩
  · exact fun s e now u s' h => (ct_ok_actividades s e now u s' h).1
  · intro s e now u msg s' h
    rw [ct_badRequest_sin_mutacion s e now u msg s' h]
  · exact ejecutar_longitud

theorem c8_longitud_bitacora_witness :
    ({ estado := "EN_PROGRESO"
       trabajadores_asignados := [1]
       fecha_inicio := some 3
       fecha_fin := none
       duracion_total_segundos := 0
       actividades := [⟨"INICIO", 3, some 2⟩] } : SeguimientoProduccion).actividades =
      ⟨"INICIO", 3, some 2⟩ :: segPendiente.actividades ∧
    (ejecutar segPendiente [⟨"INICIO", 3, some 2⟩]).actividades.length =
      segPendiente.actividades.length + aceptados segPendiente [⟨"INICIO", 3, some 2⟩] :=
  ⟨c8_longitud_bitacora.1 segPendiente "INICIO" 3 (some 2) _ (by decide),
    c8_longitud_bitacora.2.2 segPendiente [⟨"INICIO", 3, some 2⟩]⟩

/-- C6: on every entity reachable from the fresh state by the system's
operations, an accepted PAUSA — and an accepted FIN taken while in progress —
always finds a most-recent log entry, so the dereference never raises
(`controlar_tiempo` never crashes on a reachable entity); and if the log is
nevertheless empty while in progress, the request is the fatal crash outcome
rather than a success that silently adds zero. -/
theorem c6_referencia_bitacora :
    (∀ s : SeguimientoProduccion, Alcanzable s → s.estado = "EN_PROGRESO" →
        s.actividades ≠ []) ∧
    (∀ (s : SeguimientoProduccion) (now : Int) (u : Option Nat), Alcanzable s →
        (∀ t, controlar_tiempo s "PAUSA" now u ≠ .crash t) ∧
        (∀ t, controlar_tiempo s "FIN" now u ≠ .crash t)) ∧
    (∀ (s : SeguimientoProduccion) (now : Int) (u : Option Nat),
        s.trabajadores_asignados ≠ [] → s.estado = "EN_PROGRESO" → s.actividades = [] →
        controlar_tiempo s "PAUSA" now u = .crash s ∧
        controlar_tiempo s "FIN" now u = .crash s) := by
  refine ⟨fun s h => alcanzable_invLog s h, ?_, ?_⟩
  · intro s now u halc
    constructor
    · intro t hcrash
      by_cases hw : s.trabajadores_asignados = []
      · rw [ct_sin_trabajadores s "PAUSA" now u hw] at hcrash
        cases hcrash
      · by_cases he : s.estado = "EN_PROGRESO"
        · obtain ⟨ua, resto, hh⟩ :=
            List.exists_cons_of_ne_nil (alcanzable_invLog s halc he)
          rw [ct_pausa_ok s "PAUSA" now u ua resto hw (by decide) he hh] at hcrash
          cases hcrash
        · rw [ct_pausa_rechazo s "PAUSA" now u hw (by decide) he] at hcrash
          cases hcrash
    · intro t hcrash
      by_cases hw : s.trabajadores_asignados = []
      · rw [ct_sin_trabajadores s "FIN" now u hw] at hcrash
        cases hcrash
      · by_cases he1 : s.estado = "EN_PROGRESO"
        · obtain ⟨ua, resto, hh⟩ :=
            List.exists_cons_of_ne_nil (alcanzable_invLog s halc he1)
          rw [ct_fin_ok_progreso s "FIN" now u ua resto hw (by decide) he1 hh] at hcrash
          cases hcrash
        · by_cases he2 : s.estado = "PAUSADO"
          · rw [ct_fin_ok_pausado s "FIN" now u hw (by decide) he2] at hcrash
            cases hcrash
          · rw [ct_fin_rechazo s "FIN" now u hw (by decide) (by simp [he1, he2])] at hcrash
            cases hcrash
  · intro s now u hw he hnil
    exact ⟨ct_pausa_crash s "PAUSA" now u hw (by decide) he hnil,
      ct_fin_crash s "FIN" now u hw (by decide) he hnil⟩

theorem c6_referencia_bitacora_witness :
    controlar_tiempo segSinBitacora "PAUSA" 0 none = .crash segSinBitacora ∧
    controlar_tiempo segSinBitacora "FIN" 0 none = .crash segSinBitacora :=
  c6_referencia_bitacora.2.2 segSinBitacora 0 none (by decide) rfl rfl

/-- C2: an accepted PAUSA, and an accepted FIN taken while in progress,
increase the accumulated duration by exactly the difference between `now` and
the timestamp of the most recent log entry read before the new entry is
appended, truncated toward zero to whole seconds (`int_total_seconds`); an
accepted REANUDAR, and an accepted FIN taken while paused, leave the
accumulated duration unchanged. -/
theorem c2_contabilidad_duracion (s : SeguimientoProduccion) (now : Int) (u : Option Nat) :
    (∀ (ua : RegistroActividad) (resto : List RegistroActividad)
        (s' : SeguimientoProduccion), s.actividades = ua :: resto →
        controlar_tiempo s "PAUSA" now u = .ok s' →
        s'.duracion_total_segundos =
          s.duracion_total_segundos + int_total_seconds (now - ua.timestamp)) ∧
    (s.estado = "EN_PROGRESO" →
      ∀ (ua : RegistroActividad) (resto : List RegistroActividad)
        (s' : SeguimientoProduccion), s.actividades = ua :: resto →
        controlar_tiempo s "FIN" now u = .ok s' →
        s'.duracion_total_segundos =
          s.duracion_total_segundos + int_total_seconds (now - ua.timestamp)) ∧
    (∀ s' : SeguimientoProduccion, controlar_tiempo s "REANUDAR" now u = .ok s' →
        s'.duracion_total_segundos = s.duracion_total_segundos) ∧
    (s.estado = "PAUSADO" →
      ∀ s' : SeguimientoProduccion, controlar_tiempo s "FIN" now u = .ok s' →
        s'.duracion_total_segundos = s.duracion_total_segundos) := by
  refine ⟨?_, ?_, ?_, ?_⟩
  · intro ua resto s' hh hok
    by_cases hw : s.trabajadores_asignados = []
    · rw [ct_sin_trabajadores s "PAUSA" now u hw] at hok
      cases hok
    · by_cases he : s.estado = "EN_PROGRESO"
      · rw [ct_pausa_ok s "PAUSA" now u ua resto hw (by decide) he hh] at hok
        cases hok
        rfl
      · rw [ct_pausa_rechazo s "PAUSA" now u hw (by decide) he] at hok
        cases hok
  · intro he ua resto s' hh hok
    by_cases hw : s.trabajadores_asignados = []
    · rw [ct_sin_trabajadores s "FIN" now u hw] at hok
      cases hok
    · rw [ct_fin_ok_progreso s "FIN" now u ua resto hw (by decide) he hh] at hok
      cases hok
      rfl
  · intro s' hok
    by_cases hw : s.trabajadores_asignados = []
    · rw [ct_sin_trabajadores s "REANUDAR" now u hw] at hok
      cases hok
    · by_cases he : s.estado = "PAUSADO"
      · rw [ct_reanudar_ok s "REANUDAR" now u hw (by decide) he] at hok
        cases hok
        rfl
      · rw [ct_reanudar_rechazo s "REANUDAR" now u hw (by decide) he] at hok
        cases hok
  · intro he s' hok
    by_cases hw : s.trabajadores_asignados = []
    · rw [ct_sin_trabajadores s "FIN" now u hw] at hok
      cases hok
    · rw [ct_fin_ok_pausado s "FIN" now u hw (by decide) he] at hok
      cases hok
      rfl

theorem c2_contabilidad_duracion_witness :
    segProgreso.actividades = RegistroActividad.mk "INICIO" 100 none :: [] ∧
    ({ estado := "PAUSADO"
       trabajadores_asignados := [1]
       fecha_inicio := some 100
       fecha_fin := none
       duracion_total_segundos := 2
       actividades :=
         [⟨"PAUSA", 2600100, none⟩, ⟨"INICIO", 100, none⟩] } :
        SeguimientoProduccion).duracion_total_segundos =
      segProgreso.duracion_total_segundos +
        int_total_seconds (2600100 - (100 : Int)) :=
  ⟨rfl,
    (c2_contabilidad_duracion segProgreso 2600100 none).1 ⟨"INICIO", 100, none⟩ [] _
      rfl (by decide)⟩

/-- C10: the timer operation matches the event name through `pyUpper`: two
raw strings with the same uppercase form are treated identically (including
the uppercased tag stored in the log entry), and — with workers assigned —
the invalid-event rejection occurs exactly for the strings whose uppercase
form is none of the four kinds. -/
theorem c10_evento_mayusculas (s : SeguimientoProduccion) (now : Int) (u : Option Nat) :
    (∀ e1 e2 : String, pyUpper e1 = pyUpper e2 →
        controlar_tiempo s e1 now u = controlar_tiempo s e2 now u) ∧
    (∀ e : String, s.trabajadores_asignados ≠ [] →
        (controlar_tiempo s e now u = .badRequest msgEventoNoValido s ↔
          pyUpper e ∉ tipoEventoValues)) := by
  constructor
  · exact fun e1 e2 h => ct_factoriza s e1 e2 now u h
  · intro e hw
    constructor
    · intro hbad hv
      rcases (mem_tipoEventoValues e).mp hv with hup | hup | hup | hup
      · by_cases he : s.estado = "PENDIENTE"
        · rw [ct_inicio_ok s e now u hw hup he] at hbad
          cases hbad
        · rw [ct_inicio_rechazo s e now u hw hup he] at hbad
          exact absurd (Resultado.badRequest.inj hbad).1 (by decide)
      · by_cases he : s.estado = "EN_PROGRESO"
        · by_cases hnil : s.actividades = []
          · rw [ct_pausa_crash s e now u hw hup he hnil] at hbad
            cases hbad
          · obtain ⟨ua, resto, hh⟩ := List.exists_cons_of_ne_nil hnil
            rw [ct_pausa_ok s e now u ua resto hw hup he hh] at hbad
            cases hbad
        · rw [ct_pausa_rechazo s e now u hw hup he] at hbad
          exact absurd (Resultado.badRequest.inj hbad).1 (by decide)
      · by_cases he : s.estado = "PAUSADO"
        · rw [ct_reanudar_ok s e now u hw hup he] at hbad
          cases hbad
        · rw [ct_reanudar_rechazo s e now u hw hup he] at hbad
          exact absurd (Resultado.badRequest.inj hbad).1 (by decide)
      · by_cases he1 : s.estado = "EN_PROGRESO"
        · by_cases hnil : s.actividades = []
          · rw [ct_fin_crash s e now u hw hup he1 hnil] at hbad
            cases hbad
          · obtain ⟨ua, resto, hh⟩ := List.exists_cons_of_ne_nil hnil
            rw [ct_fin_ok_progreso s e now u ua resto hw hup he1 hh] at hbad
            cases hbad
        · by_cases he2 : s.estado = "PAUSADO"
          · rw [ct_fin_ok_pausado s e now u hw hup he2] at hbad
            cases hbad
          · rw [ct_fin_rechazo s e now u hw hup (by simp [he1, he2])] at hbad
            exact absurd (Resultado.badRequest.inj hbad).1 (by decide)
    · exact fun hv => ct_evento_no_valido s e now u hw hv

theorem c10_evento_mayusculas_witness :
    (controlar_tiempo segPendiente "inicio" 7 none =
      controlar_tiempo segPendiente "INICIO" 7 none) ∧
    (controlar_tiempo segPendiente "Pausa" 7 none =
      controlar_tiempo segPendiente "PAUSA" 7 none) ∧
    (controlar_tiempo segPendiente "OTRO" 7 none =
      .badRequest msgEventoNoValido segPendiente) :=
  ⟨(c10_evento_mayusculas segPendiente 7 none).1 "inicio" "INICIO" (by decide),
    (c10_evento_mayusculas segPendiente 7 none).1 "Pausa" "PAUSA" (by decide),
    ((c10_evento_mayusculas segPendiente 7 none).2 "OTRO" (by decide)).mpr (by decide)⟩

/-- C3: across any wall-clock-ordered sequence of timer requests (accepted,
rejected or crashed alike), the accumulated duration after any request is at
least its value before that request. -/
theorem c3_duracion_no_decrece (s : SeguimientoProduccion) (t : Int)
    (es : List EventoInput) (hlog : ∀ a ∈ s.actividades, a.timestamp ≤ t)
    (hcron : Cronologico t es) (n : Nat) :
    (ejecutar s (es.take n)).duracion_total_segundos ≤
      (ejecutar s (es.take (n + 1))).duracion_total_segundos := by
  induction es generalizing s t n with
  | nil => simp [ejecutar]
  | cons e es ih =>
      obtain ⟨hte, hcron'⟩ := hcron
      have hlog' : ∀ a ∈ s.actividades, a.timestamp ≤ e.now :=
        fun a ha => le_trans (hlog a ha) hte
      obtain ⟨hmono, hbound⟩ := aplicar_duracion_mono s e hlog'
      cases n with
      | zero => simpa [ejecutar] using hmono
      | succ n =>
          show (ejecutar (aplicar s e) (es.take n)).duracion_total_segundos ≤ _
          exact ih (aplicar s e) e.now hbound hcron' n

theorem c3_duracion_no_decrece_witness :
    (ejecutar segProgreso (List.take 0 [⟨"PAUSA", 2600100, none⟩])).duracion_total_segundos ≤
      (ejecutar segProgreso
        (List.take 1 [⟨"PAUSA", 2600100, none⟩])).duracion_total_segundos :=
  c3_duracion_no_decrece segProgreso 100 [⟨"PAUSA", 2600100, none⟩] (by decide)
    ⟨by norm_num, trivial⟩ 0

/-- C1: on a reachable tracking entity with a non-empty worker set, INICIO is
accepted exactly from PENDIENTE (going to EN_PROGRESO and stamping the start),
PAUSA exactly from EN_PROGRESO (going to PAUSADO), REANUDAR exactly from
PAUSADO (going to EN_PROGRESO), FIN exactly from EN_PROGRESO or PAUSADO
(going to FINALIZADO and stamping the end); no event at all is accepted in
FINALIZADO, and a second consecutive INICIO is rejected with the
state-precondition error. -/
theorem c1_maquina_de_estados (s : SeguimientoProduccion) (now : Int) (u : Option Nat)
    (halc : Alcanzable s) (hw : s.trabajadores_asignados ≠ []) :
    ((controlar_tiempo s "INICIO" now u).isOk = true ↔ s.estado = "PENDIENTE") ∧
    (∀ s', controlar_tiempo s "INICIO" now u = .ok s' →
        s'.estado = "EN_PROGRESO" ∧ s'.fecha_inicio = some now) ∧
    ((controlar_tiempo s "PAUSA" now u).isOk = true ↔ s.estado = "EN_PROGRESO") ∧
    (∀ s', controlar_tiempo s "PAUSA" now u = .ok s' → s'.estado = "PAUSADO") ∧
    ((controlar_tiempo s "REANUDAR" now u).isOk = true ↔ s.estado = "PAUSADO") ∧
    (∀ s', controlar_tiempo s "REANUDAR" now u = .ok s' → s'.estado = "EN_PROGRESO") ∧
    ((controlar_tiempo s "FIN" now u).isOk = true ↔
        (s.estado = "EN_PROGRESO" ∨ s.estado = "PAUSADO")) ∧
    (∀ s', controlar_tiempo s "FIN" now u = .ok s' →
        s'.estado = "FINALIZADO" ∧ s'.fecha_fin = some now) ∧
    (s.estado = "FINALIZADO" →
        ∀ (e : String) (now2 : Int) (u2 : Option Nat),
          (controlar_tiempo s e now2 u2).isOk = false) ∧
    (∀ s', controlar_tiempo s "INICIO" now u = .ok s' →
        ∀ (now2 : Int) (u2 : Option Nat),
          controlar_tiempo s' "INICIO" now2 u2 =
            .badRequest "El trabajo ya ha sido iniciado." s') := by
  refine ⟨?_, ?_, ?_, ?_, ?_, ?_, ?_, ?_, ?_, ?_⟩
  · by_cases he : s.estado = "PENDIENTE"
    · rw [ct_inicio_ok s "INICIO" now u hw (by decide) he]
      simp [Resultado.isOk, he]
    · rw [ct_inicio_rechazo s "INICIO" now u hw (by decide) he]
      simp [Resultado.isOk, he]
  · intro s' hok
    by_cases he : s.estado = "PENDIENTE"
    · rw [ct_inicio_ok s "INICIO" now u hw (by decide) he] at hok
      cases hok
      exact ⟨rfl, rfl⟩
    · rw [ct_inicio_rechazo s "INICIO" now u hw (by decide) he] at hok
      cases hok
  · by_cases he : s.estado = "EN_PROGRESO"
    · obtain ⟨ua, resto, hh⟩ := List.exists_cons_of_ne_nil (alcanzable_invLog s halc he)
      rw [ct_pausa_ok s "PAUSA" now u ua resto hw (by decide) he hh]
      simp [Resultado.isOk, he]
    · rw [ct_pausa_rechazo s "PAUSA" now u hw (by decide) he]
      simp [Resultado.isOk, he]
  · intro s' hok
    by_cases he : s.estado = "EN_PROGRESO"
    · obtain ⟨ua, resto, hh⟩ := List.exists_cons_of_ne_nil (alcanzable_invLog s halc he)
      rw [ct_pausa_ok s "PAUSA" now u ua resto hw (by decide) he hh] at hok
      cases hok
      rfl
    · rw [ct_pausa_rechazo s "PAUSA" now u hw (by decide) he] at hok
      cases hok
  · by_cases he : s.estado = "PAUSADO"
    · rw [ct_reanudar_ok s "REANUDAR" now u hw (by decide) he]
      simp [Resultado.isOk, he]
    · rw [ct_reanudar_rechazo s "REANUDAR" now u hw (by decide) he]
      simp [Resultado.isOk, he]
  · intro s' hok
    by_cases he : s.estado = "PAUSADO"
    · rw [ct_reanudar_ok s "REANUDAR" now u hw (by decide) he] at hok
      cases hok
      rfl
    · rw [ct_reanudar_rechazo s "REANUDAR" now u hw (by decide) he] at hok
      cases hok
  · by_cases he1 : s.estado = "EN_PROGRESO"
    · obtain ⟨ua, resto, hh⟩ := List.exists_cons_of_ne_nil (alcanzable_invLog s halc he1)
      rw [ct_fin_ok_progreso s "FIN" now u ua resto hw (by decide) he1 hh]
      simp [Resultado.isOk, he1]
    · by_cases he2 : s.estado = "PAUSADO"
      · rw [ct_fin_ok_pausado s "FIN" now u hw (by decide) he2]
        simp [Resultado.isOk, he2]
      · rw [ct_fin_rechazo s "FIN" now u hw (by decide) (by simp [he1, he2])]
        simp [Resultado.isOk, he1, he2]
  · intro s' hok
    by_cases he1 : s.estado = "EN_PROGRESO"
    · obtain ⟨ua, resto, hh⟩ := List.exists_cons_of_ne_nil (alcanzable_invLog s halc he1)
      rw [ct_fin_ok_progreso s "FIN" now u ua resto hw (by decide) he1 hh] at hok
      cases hok
      exact ⟨rfl, rfl⟩
    · by_cases he2 : s.estado = "PAUSADO"
      · rw [ct_fin_ok_pausado s "FIN" now u hw (by decide) he2] at hok
        cases hok
        exact ⟨rfl, rfl⟩
      · rw [ct_fin_rechazo s "FIN" now u hw (by decide) (by simp [he1, he2])] at hok
        cases hok
  · intro hfz e now2 u2
    by_cases hv : pyUpper e ∈ tipoEventoValues
    · rcases (mem_tipoEventoValues e).mp hv with hup | hup | hup | hup
      · rw [ct_inicio_rechazo s e now2 u2 hw hup (by simp [hfz])]
        rfl
      · rw [ct_pausa_rechazo s e now2 u2 hw hup (by simp [hfz])]
        rfl
      · rw [ct_reanudar_rechazo s e now2 u2 hw hup (by simp [hfz])]
        rfl
      · rw [ct_fin_rechazo s e now2 u2 hw hup (by simp [hfz])]
        rfl
    · rw [ct_evento_no_valido s e now2 u2 hw hv]
      rfl
  · intro s' hok now2 u2
    by_cases he : s.estado = "PENDIENTE"
    · rw [ct_inicio_ok s "INICIO" now u hw (by decide) he] at hok
      cases hok
      exact ct_inicio_rechazo _ "INICIO" now2 u2 hw (by decide) (by simp)
    · rw [ct_inicio_rechazo s "INICIO" now u hw (by decide) he] at hok
      cases hok

theorem c1_maquina_de_estados_witness :
    (controlar_tiempo segPendiente "INICIO" 100 none).isOk = true ∧
    (controlar_tiempo segPendiente "PAUSA" 100 none).isOk = false ∧
    (controlar_tiempo segPendiente "FIN" 100 none).isOk = false :=
  ⟨(c1_maquina_de_estados segPendiente 100 none alcanzable_segPendiente
      (by decide)).1.mpr rfl,
    by decide, by decide⟩

/-- C9: the worker-assignment operation rejects a non-list body with a
validation error before any mutation; on a list of ids it overwrites the
assigned-worker set with exactly the existing workers among the given ids
(unknown ids silently dropped, never an error), touches no other entity
field, and upserts each assigned worker's attendance for today to
attended. -/
theorem c9_asignacion_trabajadores (db : List Nat) (s : SeguimientoProduccion)
    (att : List RegistroAsistencia) (hoy : Nat) :
    (asignar_trabajadores db s att .noLista hoy =
        .error "Se espera una lista de IDs de trabajadores.") ∧
    (∀ ids : List Nat, ∃ s' att',
        asignar_trabajadores db s att (.lista ids) hoy = .ok (s', att') ∧
        s'.trabajadores_asignados = db.filter (fun w => w ∈ ids) ∧
        (∀ w, w ∈ s'.trabajadores_asignados ↔ w ∈ db ∧ w ∈ ids) ∧
        s'.estado = s.estado ∧ s'.fecha_inicio = s.fecha_inicio ∧
        s'.fecha_fin = s.fecha_fin ∧
        s'.duracion_total_segundos = s.duracion_total_segundos ∧
        s'.actividades = s.actividades ∧
        (∀ w ∈ s'.trabajadores_asignados, ∃ r ∈ att',
            r.trabajador = w ∧ r.fecha = hoy ∧ r.asistio = true)) := by
  constructor
  · rfl
  · intro ids
    refine ⟨_, _, rfl, rfl, ?_, rfl, rfl, rfl, rfl, rfl, ?_⟩
    · intro w
      simp [List.mem_filter]
    · intro w hwmem
      exact foldl_upsert_existe (db.filter (fun w => w ∈ ids)) att hoy w hwmem

theorem c9_asignacion_trabajadores_witness :
    (asignar_trabajadores [1, 2] initSeguimiento [] .noLista 7 =
        .error "Se espera una lista de IDs de trabajadores.") ∧
    (∃ s' att', asignar_trabajadores [1, 2] initSeguimiento [] (.lista [2, 3]) 7 =
        .ok (s', att') ∧
        s'.trabajadores_asignados = [1, 2].filter (fun w => w ∈ [2, 3]) ∧
        (∀ w, w ∈ s'.trabajadores_asignados ↔ w ∈ [1, 2] ∧ w ∈ [2, 3]) ∧
        s'.estado = initSeguimiento.estado ∧
        s'.fecha_inicio = initSeguimiento.fecha_inicio ∧
        s'.fecha_fin = initSeguimiento.fecha_fin ∧
        s'.duracion_total_segundos = initSeguimiento.duracion_total_segundos ∧
        s'.actividades = initSeguimiento.actividades ∧
        (∀ w ∈ s'.trabajadores_asignados, ∃ r ∈ att',
            r.trabajador = w ∧ r.fecha = 7 ∧ r.asistio = true)) :=
  ⟨(c9_asignacion_trabajadores [1, 2] initSeguimiento [] 7).1,
    (c9_asignacion_trabajadores [1, 2] initSeguimiento [] 7).2 [2, 3]⟩
